import Mathlib

/-!
Verification of the SSE MCP client (`src/operations/mcp-client.ts`).

The development shallowly embeds the connection/transport core of the
repository: the `SSETransport` reconnection and close logic, the
registry (`sseServers`) and client cache (`connectedClients`), the
invoker (`callTool` with its result normalization), and the test runner
(`runTestCase` / `runTests`).  External effects (the network, the
`EventSource`, `fetch`, `JSON.parse`/`RegExp` from the JS runtime, and
wall-clock time) are supplied by explicit environment records, so every
operation is a pure, executable Lean function of the program state and
the environment.
-/

/-- A model of JavaScript/JSON values as they flow through the client:
tool-call responses, tool arguments and expected test values. -/
inductive Json where
  | null : Json
  | bool (b : Bool) : Json
  | num (n : Int) : Json
  | str (s : String) : Json
  | arr (elems : List Json) : Json
  | obj (fields : List (String × Json)) : Json

/-- Field lookup on a JS object literal (first matching key). -/
def jsonLookup : List (String × Json) → String → Option Json
  | [], _ => none
  | (k, v) :: rest, key => if k == key then some v else jsonLookup rest key

/-- JavaScript truthiness of a value (`null`/`false`/`0`/`""` are falsy;
arrays and objects are always truthy). -/
def jsTruthy : Json → Bool
  | Json.null => false
  | Json.bool b => b
  | Json.num n => n != 0
  | Json.str s => s != ""
  | Json.arr _ => true
  | Json.obj _ => true

/-- Escape one character the way `JSON.stringify` escapes string data
(quotes and backslashes; other characters are kept as-is). -/
def escChar (c : Char) : String :=
  if c == '"' then "\\\"" else if c == '\\' then "\\\\" else String.singleton c

/-- Quote a string the way `JSON.stringify` renders string values. -/
def quoteStr (s : String) : String :=
  "\"" ++ String.join (s.toList.map escChar) ++ "\""

mutual

/-- Model of `JSON.stringify` on the `Json` value model, used by
`runTestCase` for the `equals` / `contains` / `regex` comparisons. -/
def stringify : Json → String
  | Json.null => "null"
  | Json.bool true => "true"
  | Json.bool false => "false"
  | Json.num n => toString n
  | Json.str s => quoteStr s
  | Json.arr xs => "[" ++ stringifyArr xs ++ "]"
  | Json.obj fs => "\x7b" ++ stringifyObj fs ++ "\x7d"

/-- Comma-separated rendering of array elements. -/
def stringifyArr : List Json → String
  | [] => ""
  | [x] => stringify x
  | x :: y :: rest => stringify x ++ "," ++ stringifyArr (y :: rest)

/-- Comma-separated rendering of object fields. -/
def stringifyObj : List (String × Json) → String
  | [] => ""
  | [(k, v)] => quoteStr k ++ ":" ++ stringify v
  | (k, v) :: p :: rest => quoteStr k ++ ":" ++ stringify v ++ "," ++ stringifyObj (p :: rest)

end

/-- Does the character list `hay` start with `sub`? -/
def startsWithList : List Char → List Char → Bool
  | _, [] => true
  | [], _ :: _ => false
  | a :: as, b :: bs => a == b && startsWithList as bs

/-- `String.includes` from JavaScript: does `hay` contain `sub` as a
contiguous substring? -/
def containsSubAux (sub : List Char) : List Char → Bool
  | [] => startsWithList [] sub
  | c :: rest => startsWithList (c :: rest) sub || containsSubAux sub rest

/-- `hay.includes(sub)` on strings. -/
def containsSub (hay sub : String) : Bool :=
  containsSubAux sub.toList hay.toList

/-- The error taxonomy of the client.  `serverNotFound` and
`toolCallError` model the typed classes `ServerNotFoundError` and
`ToolCallError`; `genericError` models any other JS `Error` (connection
failures, timeouts, ...) identified by its message. -/
inductive MCPErr where
  | serverNotFound (name : String) : MCPErr
  | toolCallError (server tool msg : String) : MCPErr
  | genericError (msg : String) : MCPErr
deriving DecidableEq

/-- Modelled from the spec: the error classes live in
`src/common/errors.ts`, which is not under `src/`; the spec (§7) gives
the taxonomy, and the messages are modelled as descriptive strings
carrying the relevant names (`error.message` in the source). -/
def MCPErr.message : MCPErr → String
  | MCPErr.serverNotFound name => "Server not found: " ++ name
  | MCPErr.toolCallError server tool msg =>
      "Tool call failed (" ++ tool ++ ") on server " ++ server ++ ": " ++ msg
  | MCPErr.genericError msg => msg

/-- Is an `Except` result a raised `ServerNotFoundError`? -/
def isServerNotFoundResult {α : Type} : Except MCPErr α → Bool
  | Except.error (MCPErr.serverNotFound _) => true
  | _ => false

/-- The mutable fields of `SSETransport` that the reconnection and close
logic reads and writes: `connected`, whether `this.eventSource` is
non-null, and `reconnectAttempts`.  `maxReconnectAttempts` is fixed at 3
and `reconnectDelay` at 1000 ms in the source. -/
structure TransportState where
  connected : Bool
  hasEventSource : Bool
  reconnectAttempts : Nat
deriving DecidableEq

/-- `maxReconnectAttempts = 3` (line 33 of the source). -/
def maxReconnectAttempts : Nat := 3

/-- `reconnectDelay = 1000` ms (line 34 of the source). -/
def reconnectDelay : Nat := 1000

/-- A fresh transport: not connected, no `EventSource`, zero attempts. -/
def initialTransport : TransportState :=
  { connected := false, hasEventSource := false, reconnectAttempts := 0 }

/-- The state mutations at the top of `SSETransport.start()` (lines
44-51): reset `reconnectAttempts` to 0 and create a new `EventSource`.
The handler installed at line 57 (which would also reset the counter on
open) is overwritten by the promise's `onopen` at line 143, which only
sets `connected`, so the effective open transition is `onopenStep`. -/
def startEntry (s : TransportState) : TransportState :=
  { s with reconnectAttempts := 0, hasEventSource := true }

/-- The effective `onopen` handler (line 143): mark the transport
connected. -/
def onopenStep (s : TransportState) : TransportState :=
  { s with connected := true }

/-- What one invocation of the `onerror` handler does besides mutating
the state: schedule a reconnect after `delay` milliseconds (then call
`start()` again), or report a fatal error to the observer and stop. -/
inductive ReconnectAction where
  | retry (delay : Nat) : ReconnectAction
  | giveUp : ReconnectAction
deriving DecidableEq

/-- One invocation of the `onerror` handler of `SSETransport.start()`
(lines 95-133).  If `reconnectAttempts < maxReconnectAttempts` it
increments the counter, computes `delay = reconnectDelay * 2 ^
(reconnectAttempts - 1)` (exponential backoff), closes the current
`EventSource`, and schedules a retry of `start()` after the delay.
Otherwise it marks the transport disconnected and reports the fatal
"failed after 3 attempts" error to the observer. -/
def onerrorStep (s : TransportState) : TransportState × ReconnectAction :=
  if s.reconnectAttempts < maxReconnectAttempts then
    let attempts := s.reconnectAttempts + 1
    let delay := reconnectDelay * 2 ^ (attempts - 1)
    ({ s with reconnectAttempts := attempts, hasEventSource := false },
     ReconnectAction.retry delay)
  else
    ({ s with connected := false }, ReconnectAction.giveUp)

/-- The sequential reconnect flow of the source on `n` consecutive
stream errors: each stream error runs the `onerror` handler; when the
handler retries, it awaits the delay and then calls `start()` (whose
entry resets the counter) before the next stream error is processed.
Returns the list of actions taken by the handler. -/
def seqErrorTrace : Nat → TransportState → List ReconnectAction
  | 0, _ => []
  | Nat.succ n, s =>
    match onerrorStep s with
    | (s1, ReconnectAction.retry d) =>
        ReconnectAction.retry d :: seqErrorTrace n (startEntry s1)
    | (_, ReconnectAction.giveUp) => [ReconnectAction.giveUp]

/-- State effect of one `SSETransport.close()` call (lines 216-236): if
an `EventSource` is present, close it, null it out and mark the
transport disconnected; otherwise leave the state untouched. -/
def closeStep (s : TransportState) : TransportState :=
  if s.hasEventSource then { s with hasEventSource := false, connected := false } else s

/-- `n` consecutive `close()` calls on the same transport, counting how
many times the observer's `onclose` callback fires.  The source invokes
`this.onclose()` unconditionally on every call (lines 224-226), so each
call contributes one notification when the callback is set. -/
def closeSeq (hasOnclose : Bool) : Nat → TransportState → TransportState × Nat
  | 0, s => (s, 0)
  | Nat.succ n, s =>
    let s1 := closeStep s
    let (s2, k) := closeSeq hasOnclose n s1
    (s2, (if hasOnclose then 1 else 0) + k)

/-- The process-wide shared state of the client module: the registry
`sseServers` (name ↦ endpoint URL) and the cache `connectedClients`
(names with an established `Client`). -/
structure McpState where
  sseServers : List (String × String)
  connectedClients : List String
deriving DecidableEq

/-- `Map.get` on the registry: the value stored under `k`, if any. -/
def mapGet : List (String × String) → String → Option String
  | [], _ => none
  | (k1, v1) :: rest, k => if k1 == k then some v1 else mapGet rest k

/-- `Map.has` on the registry. -/
def mapHas (m : List (String × String)) (k : String) : Bool :=
  (mapGet m k).isSome

/-- `Map.delete`: drop the entry stored under `k`. -/
def mapDelete (m : List (String × String)) (k : String) : List (String × String) :=
  m.filter (fun p => p.fst != k)

/-- `Map.set`: replace the entry under `k` in place, or append it. -/
def mapSet : List (String × String) → String → String → List (String × String)
  | [], k, v => [(k, v)]
  | (k1, v1) :: rest, k, v =>
    if k1 == k then (k, v) :: rest else (k1, v1) :: mapSet rest k v

/-- Drop a name from the connected-clients cache (`Map.delete`). -/
def cacheDelete (c : List String) (name : String) : List String :=
  c.filter (fun n => n != name)

/-- `registerSSEServer(name, url, force)` (lines 254-289).  Returns the
new state together with the list of cached clients whose transport
`close()` was attempted during cleanup; errors thrown by that close are
caught and ignored (lines 272-279), so the close outcome never affects
the result — the unused `closeThrows` argument records that.  If the
name is already registered and `force` is false, the call is a no-op.
Otherwise, when the name was registered, the old registration is
deleted and any cached client is closed and evicted; finally the new
registration is stored. -/
def registerSSEServer (s : McpState) (name url : String) (force : Bool)
    (closeThrows : Bool) : McpState × List String :=
  if mapHas s.sseServers name && !force then (s, [])
  else
    let cleaned : McpState × List String :=
      if mapHas s.sseServers name then
        let sA : McpState := { s with sseServers := mapDelete s.sseServers name }
        if sA.connectedClients.contains name then
          ({ sA with connectedClients := cacheDelete sA.connectedClients name }, [name])
        else (sA, [])
      else (s, [])
    ({ cleaned.fst with sseServers := mapSet cleaned.fst.sseServers name url }, cleaned.snd)

/-- `unregisterSSEServer(name)` (lines 292-319): no-op when the name is
unknown; otherwise close and evict any cached client and remove the
registration. -/
def unregisterSSEServer (s : McpState) (name : String) : McpState × List String :=
  if !(mapHas s.sseServers name) then (s, [])
  else
    let cleaned : McpState × List String :=
      if s.connectedClients.contains name then
        ({ s with connectedClients := cacheDelete s.connectedClients name }, [name])
      else (s, [])
    ({ cleaned.fst with sseServers := mapDelete cleaned.fst.sseServers name }, cleaned.snd)

/-- `response && response.content && Array.isArray(response.content)`
(line 418): the raw result carries a content array exactly when it is an
object (always truthy) whose `content` field holds an array. -/
def contentArray : Json → Option (List Json)
  | Json.obj fields =>
    match jsonLookup fields "content" with
    | some (Json.arr xs) => some xs
    | _ => none
  | _ => none

/-- `item.type === 'text'` (line 420): the item is an object whose
`type` field is the string `"text"`. -/
def isTextItem : Json → Bool
  | Json.obj fields =>
    match jsonLookup fields "type" with
    | some (Json.str t) => t == "text"
    | _ => false
  | _ => false

/-- `response.content.find(item => item.type === 'text')` followed by
the access `textContent.text`: the `text` field of the first item whose
`type` is `"text"`, if such an item and field exist. -/
def firstTextField (items : List Json) : Option Json :=
  (items.find? isTextItem).bind fun item =>
    match item with
    | Json.obj fields => jsonLookup fields "text"
    | _ => none

/-- The result-normalization step of `callTool` (lines 414-430).
`parse` models `JSON.parse` under `try`/`catch`: `some` on success,
`none` when parsing throws.  If the response carries a content array
whose first text item has a truthy `text`, the result is the parsed
text, falling back to the raw text on parse failure; otherwise the raw
response passes through unchanged. -/
def normalizeResult (parse : Json → Option Json) (response : Json) : Json :=
  match contentArray response with
  | some items =>
    match firstTextField items with
    | some v => if jsTruthy v then (parse v).getD v else response
    | none => response
  | none => response

/-- `getClient(serverName)` (lines 322-362).  `connect` is the outcome
of `client.connect(transport)` supplied by the environment.  A cached
client is returned as-is.  Otherwise the registration is looked up — an
unknown name throws `ServerNotFoundError` — and on success the new
client is cached.  The whole body sits in a `try` whose `catch` wraps
every error into `ToolCallError(serverName, 'connect', message)`, so the
inner `ServerNotFoundError` never escapes untouched. -/
def getClient (connect : Except MCPErr Unit) (s : McpState) (name : String) :
    Except MCPErr McpState :=
  if s.connectedClients.contains name then Except.ok s
  else
    let inner : Except MCPErr McpState :=
      match mapGet s.sseServers name with
      | none => Except.error (MCPErr.serverNotFound name)
      | some _ =>
        match connect with
        | Except.error e => Except.error e
        | Except.ok _ =>
            Except.ok { s with connectedClients := s.connectedClients ++ [name] }
    match inner with
    | Except.error e => Except.error (MCPErr.toolCallError name "connect" e.message)
    | Except.ok s1 => Except.ok s1

/-- The outcome record of `callTool`: on success `result` holds the
normalized value and `error` is absent; on failure `result` is `null`
and `error` carries the message.  `duration_ms` is the measured
wall-clock time. -/
structure CallToolResponse where
  result : Json
  error : Option String
  duration_ms : Nat

/-- The environment of one `callTool` invocation: the outcome of the
HEAD health-check `fetch` (line 384), of `client.connect` inside
`getClient`, and of `client.callTool` (line 406); the `JSON.parse`
behaviour; and the elapsed wall-clock time `Date.now() - startTime`. -/
structure CallEnv where
  healthCheckOk : Bool
  connect : Except MCPErr Unit
  callToolRaw : Except MCPErr Json
  parse : Json → Option Json
  elapsed : Nat

/-- The cache eviction in `callTool`'s `catch` (lines 442-448): when the
error message mentions `ECONNREFUSED`, `timeout` or `not connected`, the
cached client for the server is dropped. -/
def evictIfConnErr (e : MCPErr) (s : McpState) (name : String) : McpState :=
  if containsSub e.message "ECONNREFUSED" || containsSub e.message "timeout" ||
      containsSub e.message "not connected" then
    { s with connectedClients := cacheDelete s.connectedClients name }
  else s

/-- The setup phase of `callTool` (lines 370-402): with a cached client,
health-check the endpoint first and on probe failure evict the cache
entry and call `getClient` afresh; without a cached client, call
`getClient` directly. -/
def callSetup (env : CallEnv) (s : McpState) (server_name : String) :
    Except MCPErr Unit × McpState :=
  if s.connectedClients.contains server_name then
    if env.healthCheckOk then (Except.ok (), s)
    else
      let sEv : McpState := { s with connectedClients := cacheDelete s.connectedClients server_name }
      match getClient env.connect sEv server_name with
      | Except.ok s1 => (Except.ok (), s1)
      | Except.error e => (Except.error e, sEv)
  else
    match getClient env.connect s server_name with
    | Except.ok s1 => (Except.ok (), s1)
    | Except.error e => (Except.error e, s)

/-- `callTool(input)` (lines 365-456).  The entire body sits in a
`try`/`catch` whose `catch` returns `{result: null, error: message,
duration_ms}`, so the function never throws: its type is a plain pair of
response and updated state.  After setup it issues the tool call and
normalizes the result. -/
def callTool (env : CallEnv) (s : McpState) (server_name tool_name : String)
    (args : Json) : CallToolResponse × McpState :=
  match callSetup env s server_name with
  | (Except.error e, s1) =>
      ({ result := Json.null, error := some e.message, duration_ms := env.elapsed },
       evictIfConnErr e s1 server_name)
  | (Except.ok _, s1) =>
    match env.callToolRaw with
    | Except.error e =>
        ({ result := Json.null, error := some e.message, duration_ms := env.elapsed },
         evictIfConnErr e s1 server_name)
    | Except.ok response =>
        ({ result := normalizeResult env.parse response, error := none,
           duration_ms := env.elapsed }, s1)

/-- `listTools(serverName)` (lines 459-486).  `raw` is the outcome of
`client.listTools()`: `response?.tools` may be missing (`none`), in
which case `|| []` yields the empty list.  Every error — including the
wrapped `ServerNotFoundError` coming out of `getClient` — is re-wrapped
into `ToolCallError(serverName, 'listTools', message)` and thrown. -/
def listTools (connect : Except MCPErr Unit)
    (raw : Except MCPErr (Option (List String))) (s : McpState) (name : String) :
    Except MCPErr (List String) × McpState :=
  match getClient connect s name with
  | Except.error e =>
      (Except.error (MCPErr.toolCallError name "listTools" e.message), s)
  | Except.ok s1 =>
    match raw with
    | Except.error e =>
        (Except.error (MCPErr.toolCallError name "listTools" e.message), s1)
    | Except.ok tools => (Except.ok (tools.getD []), s1)

/-- The expectation attached to a test case: a kind string (`equals`,
`contains`, `regex` — but any string can appear at runtime) and the
expected value. -/
structure Expectation where
  type : String
  value : Json

/-- A `TestCase` from `src/types/schemas.ts` as `runTestCase` consumes
it: name, description, tool to call, input arguments, and an optional
expectation. -/
structure TestCase where
  name : String
  description : String
  tool : String
  input : Json
  expected : Option Expectation

/-- A `TestResult`: name, pass flag, message, duration, and the error
message when the underlying tool call failed. -/
structure TestResult where
  name : String
  passed : Bool
  message : String
  duration_ms : Nat
  error : Option String

/-- JS truthiness of `result.error` (line 503): absent or empty string
is falsy. -/
def errTruthy : Option String → Bool
  | none => false
  | some s => s != ""

/-- `runTestCase(serverName, test)` (lines 489-554).  `regexTest`
models `new RegExp(expected.value).test(string)` from the JS runtime.
The tool call itself never throws (see `callTool`), so the flow is: a
truthy `result.error` yields a failing result carrying the error;
otherwise, with an expectation present, the comparison dispatches on
the kind string (an unrecognized kind leaves `passed = false`); with no
expectation the test passes. -/
def runTestCase (env : CallEnv) (regexTest : Json → String → Bool) (s : McpState)
    (serverName : String) (test : TestCase) : TestResult × McpState :=
  let call := callTool env s serverName test.tool test.input
  let r := call.fst
  let s1 := call.snd
  if errTruthy r.error then
    let err := r.error.getD ""
    ({ name := test.name, passed := false, message := "Tool call failed: " ++ err,
       duration_ms := env.elapsed, error := some err }, s1)
  else
    match test.expected with
    | some exp =>
      let passed :=
        if exp.type == "equals" then stringify r.result == stringify exp.value
        else if exp.type == "contains" then containsSub (stringify r.result) (stringify exp.value)
        else if exp.type == "regex" then regexTest exp.value (stringify r.result)
        else false
      ({ name := test.name, passed := passed,
         message := if passed then "Test passed" else "Test failed: result did not match expected value",
         duration_ms := env.elapsed, error := none }, s1)
    | none =>
      ({ name := test.name, passed := true, message := "Test passed",
         duration_ms := env.elapsed, error := none }, s1)

/-- The synthesized default test for one discovered tool (lines
572-579): call the tool with an empty input object, no expectation. -/
def mkBasicTest (tool : String) : TestCase :=
  { name := "List " ++ tool ++ " schema",
    description := "Check that " ++ tool ++ " is available and has a valid schema",
    tool := tool, input := Json.obj [], expected := none }

/-- The per-test loop of `runTests` (lines 582-586): run each test case
in order, threading the shared state; the environment of the `i`-th
call is `calls i`. -/
def runTestsLoop (calls : Nat → CallEnv) (regexTest : Json → String → Bool)
    (serverName : String) : Nat → McpState → List TestCase → List TestResult × McpState
  | _, s, [] => ([], s)
  | i, s, t :: rest =>
    let step := runTestCase (calls i) regexTest s serverName t
    let next := runTestsLoop calls regexTest serverName (i + 1) step.snd rest
    (step.fst :: next.fst, next.snd)

/-- The summary block of a test run. -/
structure RunSummary where
  total : Nat
  passed : Nat
  failed : Nat
  duration_ms : Nat

/-- The response of `runTests`: the individual results plus a summary. -/
structure RunTestsResponse where
  results : List TestResult
  summary : RunSummary

/-- The environment of one `runTests` invocation: the outcome of
`getServerProcess` (modelled from the spec: `src/operations/docker.ts`
is not under `src/`; per §4.5/§6 it checks that the named server exists
and throws `ServerNotFoundError` when it does not — here its outcome is
environment-supplied), the connect outcome and raw tool listing used by
`listTools`, the per-test call environments, the `RegExp` behaviour,
and the elapsed wall-clock time. -/
structure RunEnv where
  getServerProcess : Except MCPErr Unit
  listConnect : Except MCPErr Unit
  listToolsRaw : Except MCPErr (Option (List String))
  calls : Nat → CallEnv
  regexTest : Json → String → Bool
  elapsed : Nat

/-- The `catch` block of `runTests` (lines 603-627): a
`ServerNotFoundError` is re-thrown; any other error becomes a response
with one synthetic failing result and a `1/0/1` summary. -/
def runTestsCatch (env : RunEnv) (e : MCPErr) : Except MCPErr RunTestsResponse :=
  match e with
  | MCPErr.serverNotFound n => Except.error (MCPErr.serverNotFound n)
  | _ =>
    Except.ok
      { results := [{ name := "Test suite setup", passed := false,
                      message := "Failed to setup test suite: " ++ e.message,
                      duration_ms := env.elapsed, error := some e.message }],
        summary := { total := 1, passed := 0, failed := 1, duration_ms := env.elapsed } }

/-- `runTests(input)` (lines 557-628): check that the server process
exists, list its tools, synthesize one basic test per tool, run them
in order, and aggregate `passed`/`total`/`failed`; any exception on the
setup path goes through `runTestsCatch`. -/
def runTests (env : RunEnv) (s : McpState) (serverName : String) :
    Except MCPErr RunTestsResponse × McpState :=
  match env.getServerProcess with
  | Except.error e => (runTestsCatch env e, s)
  | Except.ok _ =>
    match listTools env.listConnect env.listToolsRaw s serverName with
    | (Except.error e, s1) => (runTestsCatch env e, s1)
    | (Except.ok tools, s1) =>
      let basicTests := tools.map mkBasicTest
      let run := runTestsLoop env.calls env.regexTest serverName 0 s1 basicTests
      let results := run.fst
      let passed := (results.filter (fun r => r.passed)).length
      let total := results.length
      (Except.ok { results := results,
                   summary := { total := total, passed := passed, failed := total - passed,
                                duration_ms := env.elapsed } }, run.snd)

/-- Setting a key always makes it retrievable with the new value. -/
theorem mapGet_mapSet_self (m : List (String × String)) (k v : String) :
    mapGet (mapSet m k v) k = some v := by
  induction m with
  | nil => simp [mapSet, mapGet]
  | cons p rest ih =>
    obtain ⟨k1, v1⟩ := p
    by_cases hk : k1 = k
    · subst hk; simp [mapSet, mapGet]
    · simp [mapSet, mapGet, hk, ih]

/-- Evicting a name from the cache removes it. -/
theorem not_mem_cacheDelete (c : List String) (name : String) :
    name ∉ cacheDelete c name := by
  simp [cacheDelete]

/-- Claim C5: registering an already-registered name with `force=false`
is a no-op — the state (stored endpoint and cached session alike) is
unchanged and no cached client is closed. -/
theorem register_noforce_noop (s : McpState) (name url2 : String) (ct : Bool)
    (h : mapHas s.sseServers name = true) :
    registerSSEServer s name url2 false ct = (s, []) := by
  simp [registerSSEServer, h]

/-- Witness for `register_noforce_noop` at a concrete registered name
with a different new endpoint and a cached session. -/
theorem register_noforce_noop_witness :
    registerSSEServer
        { sseServers := [("calc", "http://localhost:4000")], connectedClients := ["calc"] }
        "calc" "http://localhost:5000" false false =
      ({ sseServers := [("calc", "http://localhost:4000")], connectedClients := ["calc"] }, []) :=
  register_noforce_noop _ "calc" "http://localhost:5000" false (by decide)

/-- Claim C4: registering an already-registered name with `force=true`
stores the new endpoint, evicts the cached client (closing it exactly
when one was cached), and the outcome does not depend on whether the
close throws (close errors are swallowed); this holds even when the new
endpoint equals the old one. -/
theorem register_force_replaces (s : McpState) (name url2 : String) (ct : Bool)
    (h : mapHas s.sseServers name = true) :
    mapGet (registerSSEServer s name url2 true ct).fst.sseServers name = some url2 ∧
    (registerSSEServer s name url2 true ct).fst.connectedClients.contains name = false ∧
    (registerSSEServer s name url2 true ct).snd =
      (if s.connectedClients.contains name then [name] else []) ∧
    (∀ ct2 : Bool, registerSSEServer s name url2 true ct =
      registerSSEServer s name url2 true ct2) := by
  refine ⟨?_, ?_, ?_, fun ct2 => rfl⟩
  · by_cases hc : name ∈ s.connectedClients <;>
      simp [registerSSEServer, h, hc, mapGet_mapSet_self]
  · by_cases hc : name ∈ s.connectedClients <;>
      simp [registerSSEServer, h, hc, not_mem_cacheDelete]
  · by_cases hc : name ∈ s.connectedClients <;>
      simp [registerSSEServer, h, hc]

/-- Witness for `register_force_replaces`: a registered name with a
cached session, re-registered at the identical endpoint. -/
theorem register_force_replaces_witness :
    mapGet (registerSSEServer
        { sseServers := [("calc", "http://localhost:4000")], connectedClients := ["calc"] }
        "calc" "http://localhost:4000" true false).fst.sseServers "calc" =
      some "http://localhost:4000" ∧
    (registerSSEServer
        { sseServers := [("calc", "http://localhost:4000")], connectedClients := ["calc"] }
        "calc" "http://localhost:4000" true false).fst.connectedClients.contains "calc" = false ∧
    (registerSSEServer
        { sseServers := [("calc", "http://localhost:4000")], connectedClients := ["calc"] }
        "calc" "http://localhost:4000" true false).snd =
      (if ({ sseServers := [("calc", "http://localhost:4000")],
             connectedClients := ["calc"] } : McpState).connectedClients.contains "calc"
       then ["calc"] else []) ∧
    (∀ ct2 : Bool, registerSSEServer
        { sseServers := [("calc", "http://localhost:4000")], connectedClients := ["calc"] }
        "calc" "http://localhost:4000" true false =
      registerSSEServer
        { sseServers := [("calc", "http://localhost:4000")], connectedClients := ["calc"] }
        "calc" "http://localhost:4000" true ct2) :=
  register_force_replaces _ "calc" "http://localhost:4000" false (by decide)

/-- Claim C2 (evidence of the divergence): starting from a freshly
started and opened transport, four consecutive stream errors — each
handled by the sequential reconnect flow, whose `start()` call resets
`reconnectAttempts` to 0 — all retry with the base delay of 1000 ms;
the transport never reports the fatal give-up, contradicting the
documented cap of 3 attempts with growing delays. -/
theorem reconnect_never_reaches_max :
    seqErrorTrace 4 (onopenStep (startEntry initialTransport)) =
      [ReconnectAction.retry 1000, ReconnectAction.retry 1000,
       ReconnectAction.retry 1000, ReconnectAction.retry 1000] := by
  decide

/-- Claim C8 (amended): `close()` is idempotent on the transport state —
a second call leaves the state unchanged — but the observer's `onclose`
callback fires once per `close()` call, so a sequence of `n` calls with
the callback set produces `n` notifications, not exactly one. -/
theorem close_state_idempotent_notify_per_call (s : TransportState) (n : Nat) :
    closeStep (closeStep s) = closeStep s ∧ (closeSeq true n s).snd = n := by
  constructor
  · rcases s with ⟨c, es, r⟩
    cases es <;> simp [closeStep]
  · induction n generalizing s with
    | zero => rfl
    | succ k ih => simp [closeSeq, ih, Nat.add_comm]

/-- Claim C8 (counterexample): two `close()` calls on a live transport
with an observer notify the observer twice, not exactly once. -/
theorem close_notifies_twice_cex :
    (closeSeq true 2 { connected := true, hasEventSource := true, reconnectAttempts := 0 }).snd = 2 ∧
    ¬ (closeSeq true 2 { connected := true, hasEventSource := true, reconnectAttempts := 0 }).snd = 1 := by
  decide

/-- Every error escaping `getClient` is a wrapped
`ToolCallError(name, connect, ...)` — never a bare error. -/
theorem getClient_error_shape (connect : Except MCPErr Unit) (s : McpState)
    (name : String) (e : MCPErr) (h : getClient connect s name = Except.error e) :
    ∃ msg, e = MCPErr.toolCallError name "connect" msg := by
  unfold getClient at h
  by_cases hc : name ∈ s.connectedClients
  · simp [hc] at h
  · cases hm : mapGet s.sseServers name with
    | none =>
      simp [hc, hm] at h
      exact ⟨_, h.symm⟩
    | some u =>
      cases hcn : connect with
      | error e2 =>
        simp [hc, hm, hcn] at h
        exact ⟨_, h.symm⟩
      | ok _ => simp [hc, hm, hcn] at h

/-- A `ToolCallError` message is never empty (it starts with a fixed
prefix). -/
theorem toolCallError_message_ne_empty (server tool msg : String) :
    (MCPErr.toolCallError server tool msg).message ≠ "" := by
  intro h
  have hlen := congrArg String.length h
  simp only [MCPErr.message, String.length_append] at hlen
  have h1 : ("Tool call failed (" : String).length = 18 := rfl
  have h2 : ("" : String).length = 0 := rfl
  omega

/-- Claim C1 (amended): looking up an unregistered name does not surface
the typed `ServerNotFoundError` to any caller.  `getClient` throws it
internally but its catch wraps it into a `ToolCallError(connect)`
carrying the not-found message, and `callTool` does not throw at all:
it returns `{result: null, error: <wrapped message>, duration_ms}`. -/
theorem callTool_unregistered_wrapped (env : CallEnv) (s : McpState)
    (name tool : String) (args : Json)
    (hreg : mapGet s.sseServers name = none)
    (hcache : name ∉ s.connectedClients) :
    getClient env.connect s name =
      Except.error (MCPErr.toolCallError name "connect"
        (MCPErr.serverNotFound name).message) ∧
    (callTool env s name tool args).fst.result = Json.null ∧
    (callTool env s name tool args).fst.error =
      some (MCPErr.toolCallError name "connect"
        (MCPErr.serverNotFound name).message).message ∧
    (callTool env s name tool args).fst.duration_ms = env.elapsed := by
  have hg : getClient env.connect s name =
      Except.error (MCPErr.toolCallError name "connect"
        (MCPErr.serverNotFound name).message) := by
    simp [getClient, hcache, hreg]
  refine ⟨hg, ?_, ?_, ?_⟩ <;> simp [callTool, callSetup, hcache, hg]

/-- Witness for `callTool_unregistered_wrapped` at an empty registry. -/
theorem callTool_unregistered_wrapped_witness :
    getClient (Except.ok ()) { sseServers := [], connectedClients := [] } "calc" =
      Except.error (MCPErr.toolCallError "calc" "connect"
        (MCPErr.serverNotFound "calc").message) ∧
    (callTool
        { healthCheckOk := true, connect := Except.ok (),
          callToolRaw := Except.ok Json.null, parse := fun _ => none, elapsed := 5 }
        { sseServers := [], connectedClients := [] } "calc" "add" Json.null).fst.result =
      Json.null ∧
    (callTool
        { healthCheckOk := true, connect := Except.ok (),
          callToolRaw := Except.ok Json.null, parse := fun _ => none, elapsed := 5 }
        { sseServers := [], connectedClients := [] } "calc" "add" Json.null).fst.error =
      some (MCPErr.toolCallError "calc" "connect"
        (MCPErr.serverNotFound "calc").message).message ∧
    (callTool
        { healthCheckOk := true, connect := Except.ok (),
          callToolRaw := Except.ok Json.null, parse := fun _ => none, elapsed := 5 }
        { sseServers := [], connectedClients := [] } "calc" "add" Json.null).fst.duration_ms =
      ({ healthCheckOk := true, connect := Except.ok (),
         callToolRaw := Except.ok Json.null, parse := fun _ => none,
         elapsed := 5 } : CallEnv).elapsed :=
  callTool_unregistered_wrapped _ _ "calc" "add" Json.null rfl (by simp)

/-- Claim C1 (counterexample): with `calc` unregistered, the consumer
lookup `getClient` fails with a `ToolCallError`, not with the typed
`ServerNotFoundError`, and `callTool` does not raise a typed error at
all — it returns a plain error-string result. -/
theorem callTool_unregistered_not_typed_cex :
    isServerNotFoundResult
        (getClient (Except.ok ()) { sseServers := [], connectedClients := [] } "calc") =
      false ∧
    getClient (Except.ok ()) { sseServers := [], connectedClients := [] } "calc" =
      Except.error (MCPErr.toolCallError "calc" "connect" "Server not found: calc") ∧
    (callTool
        { healthCheckOk := true, connect := Except.ok (),
          callToolRaw := Except.ok Json.null, parse := fun _ => none, elapsed := 5 }
        { sseServers := [], connectedClients := [] } "calc" "add" Json.null).fst.error =
      some "Tool call failed (connect) on server calc: Server not found: calc" :=
  ⟨rfl, rfl, rfl⟩

/-- Every error escaping the setup phase of `callTool` is a wrapped
`ToolCallError(server, connect, ...)`. -/
theorem callSetup_error_shape (env : CallEnv) (s : McpState) (sn : String)
    (e : MCPErr) (h : (callSetup env s sn).fst = Except.error e) :
    ∃ msg, e = MCPErr.toolCallError sn "connect" msg := by
  unfold callSetup at h
  by_cases hc : sn ∈ s.connectedClients
  · by_cases hh : env.healthCheckOk
    · simp [hc, hh] at h
    · cases hg : getClient env.connect
          { s with connectedClients := cacheDelete s.connectedClients sn } sn with
      | ok s1 => simp [hc, hh, hg] at h
      | error e2 =>
        obtain ⟨msg, rfl⟩ := getClient_error_shape _ _ _ _ hg
        simp [hc, hh, hg] at h
        exact ⟨msg, h.symm⟩
  · cases hg : getClient env.connect s sn with
    | ok s1 => simp [hc, hg] at h
    | error e2 =>
      obtain ⟨msg, rfl⟩ := getClient_error_shape _ _ _ _ hg
      simp [hc, hg] at h
      exact ⟨msg, h.symm⟩

/-- Claim C3: `callTool` never raises — failures on the call path
produce a result object `{result: null, error: message, duration_ms:
elapsed}`, and the error string is non-empty whenever the remote
failure carries a non-empty message (every setup failure is wrapped
with a non-empty prefix regardless). -/
theorem callTool_failure_shape (env : CallEnv) (s : McpState) (sn tn : String)
    (args : Json) (m : String)
    (hmsg : ∀ e, env.callToolRaw = Except.error e → e.message ≠ "")
    (herr : (callTool env s sn tn args).fst.error = some m) :
    (callTool env s sn tn args).fst.result = Json.null ∧
    (callTool env s sn tn args).fst.duration_ms = env.elapsed ∧ m ≠ "" := by
  rcases hst : callSetup env s sn with ⟨res, s1⟩
  cases res with
  | error e =>
    obtain ⟨msg, rfl⟩ := callSetup_error_shape env s sn e (by rw [hst])
    simp only [callTool, hst] at herr ⊢
    refine ⟨trivial, trivial, ?_⟩
    simp only [Option.some.injEq] at herr
    rw [← herr]
    exact toolCallError_message_ne_empty sn "connect" msg
  | ok u =>
    cases hcall : env.callToolRaw with
    | error e =>
      simp only [callTool, hst, hcall] at herr ⊢
      refine ⟨trivial, trivial, ?_⟩
      simp only [Option.some.injEq] at herr
      rw [← herr]
      exact hmsg e hcall
    | ok resp => simp [callTool, hst, hcall] at herr

/-- Witness for `callTool_failure_shape`: a cached, healthy connection
whose remote call fails with message `boom`. -/
theorem callTool_failure_shape_witness :
    (callTool
        { healthCheckOk := true, connect := Except.ok (),
          callToolRaw := Except.error (MCPErr.genericError "boom"),
          parse := fun _ => none, elapsed := 7 }
        { sseServers := [("calc", "http://localhost:4000")], connectedClients := ["calc"] }
        "calc" "add" Json.null).fst.result = Json.null ∧
    (callTool
        { healthCheckOk := true, connect := Except.ok (),
          callToolRaw := Except.error (MCPErr.genericError "boom"),
          parse := fun _ => none, elapsed := 7 }
        { sseServers := [("calc", "http://localhost:4000")], connectedClients := ["calc"] }
        "calc" "add" Json.null).fst.duration_ms =
      ({ healthCheckOk := true, connect := Except.ok (),
         callToolRaw := Except.error (MCPErr.genericError "boom"),
         parse := fun _ => none, elapsed := 7 } : CallEnv).elapsed ∧
    "boom" ≠ "" :=
  callTool_failure_shape _ _ "calc" "add" Json.null "boom"
    (fun e he => by
      injection he with h1
      rw [← h1]
      decide)
    rfl

/-- Claim C7: the normalization of `callTool` extracts the first text
content item of a content-list response — parsing its text via `parse`
(`JSON.parse` under `try`/`catch`) and falling back to the raw text on
parse failure — and passes every value that does not carry a content
array through unchanged. -/
theorem normalize_extract_and_idempotent (parse : Json → Option Json) (resp : Json) :
    (contentArray resp = none → normalizeResult parse resp = resp) ∧
    (∀ items v, contentArray resp = some items → firstTextField items = some v →
       jsTruthy v = true → normalizeResult parse resp = (parse v).getD v) := by
  constructor
  · intro h
    simp [normalizeResult, h]
  · intro items v h1 h2 h3
    simp [normalizeResult, h1, h2, h3]

/-- Witness for `normalize_extract_and_idempotent`: a plain structured
value passes through unchanged, and a text-wrapped response is parsed. -/
theorem normalize_extract_and_idempotent_witness :
    normalizeResult (fun _ => none) (Json.num 5) = Json.num 5 ∧
    normalizeResult (fun _ => some (Json.num 42))
        (Json.obj [("content",
          Json.arr [Json.obj [("type", Json.str "text"), ("text", Json.str "42")]])]) =
      Json.num 42 := by
  constructor
  · exact (normalize_extract_and_idempotent (fun _ => none) (Json.num 5)).1 rfl
  · exact (normalize_extract_and_idempotent (fun _ => some (Json.num 42))
      (Json.obj [("content",
        Json.arr [Json.obj [("type", Json.str "text"), ("text", Json.str "42")]])])).2
      [Json.obj [("type", Json.str "text"), ("text", Json.str "42")]]
      (Json.str "42") rfl rfl rfl

/-- Claim C9: when a successful tool-call response carries a content
array whose first text item has `text = ""` (falsy), `callTool` skips
the extraction and returns the entire raw response as the result. -/
theorem empty_text_returns_raw (env : CallEnv) (s : McpState) (sn tn : String)
    (args : Json) (resp : Json) (items : List Json)
    (hcache : sn ∈ s.connectedClients)
    (hhc : env.healthCheckOk = true)
    (hcall : env.callToolRaw = Except.ok resp)
    (hcontent : contentArray resp = some items)
    (htext : firstTextField items = some (Json.str "")) :
    (callTool env s sn tn args).fst.result = resp ∧
    (callTool env s sn tn args).fst.error = none := by
  constructor <;>
    simp [callTool, callSetup, hcache, hhc, hcall, normalizeResult, hcontent, htext, jsTruthy]

/-- Witness for `empty_text_returns_raw` at a concrete response whose
first (and only) text item has empty text. -/
theorem empty_text_returns_raw_witness :
    (callTool
        { healthCheckOk := true, connect := Except.ok (),
          callToolRaw := Except.ok (Json.obj [("content",
            Json.arr [Json.obj [("type", Json.str "text"), ("text", Json.str "")]])]),
          parse := fun _ => some (Json.num 99), elapsed := 3 }
        { sseServers := [("calc", "http://localhost:4000")], connectedClients := ["calc"] }
        "calc" "add" Json.null).fst.result =
      Json.obj [("content",
        Json.arr [Json.obj [("type", Json.str "text"), ("text", Json.str "")]])] ∧
    (callTool
        { healthCheckOk := true, connect := Except.ok (),
          callToolRaw := Except.ok (Json.obj [("content",
            Json.arr [Json.obj [("type", Json.str "text"), ("text", Json.str "")]])]),
          parse := fun _ => some (Json.num 99), elapsed := 3 }
        { sseServers := [("calc", "http://localhost:4000")], connectedClients := ["calc"] }
        "calc" "add" Json.null).fst.error = none :=
  empty_text_returns_raw _ _ "calc" "add" Json.null _
    [Json.obj [("type", Json.str "text"), ("text", Json.str "")]]
    (by simp) rfl rfl rfl rfl

/-- Claim C10: when the tool call succeeds and the expectation kind is
none of `equals`, `contains`, `regex`, `runTestCase` reports a plain
failed comparison: `passed = false` with the mismatch message and no
error field. -/
theorem unknown_expectation_kind_fails (env : CallEnv) (rt : Json → String → Bool)
    (s : McpState) (sn : String) (test : TestCase) (exp : Expectation)
    (hexp : test.expected = some exp)
    (h1 : exp.type ≠ "equals") (h2 : exp.type ≠ "contains") (h3 : exp.type ≠ "regex")
    (hok : (callTool env s sn test.tool test.input).fst.error = none) :
    (runTestCase env rt s sn test).fst =
      { name := test.name, passed := false,
        message := "Test failed: result did not match expected value",
        duration_ms := env.elapsed, error := none } := by
  simp [runTestCase, hok, errTruthy, hexp, h1, h2, h3]

/-- Witness for `unknown_expectation_kind_fails`: a successful call with
an expectation of the unrecognized kind `approx`. -/
theorem unknown_expectation_kind_fails_witness :
    (runTestCase
        { healthCheckOk := true, connect := Except.ok (),
          callToolRaw := Except.ok (Json.num 5), parse := fun _ => none, elapsed := 2 }
        (fun _ _ => true)
        { sseServers := [("calc", "http://localhost:4000")], connectedClients := ["calc"] }
        "calc"
        { name := "t1", description := "d", tool := "add", input := Json.obj [],
          expected := some { type := "approx", value := Json.num 5 } }).fst =
      { name := "t1", passed := false,
        message := "Test failed: result did not match expected value",
        duration_ms := 2, error := none } :=
  unknown_expectation_kind_fails _ (fun _ _ => true) _ "calc"
    { name := "t1", description := "d", tool := "add", input := Json.obj [],
      expected := some { type := "approx", value := Json.num 5 } }
    { type := "approx", value := Json.num 5 }
    rfl (by decide) (by decide) (by decide) rfl

/-- Every error escaping `listTools` is a wrapped
`ToolCallError(server, listTools, ...)` — in particular it is never a
`ServerNotFoundError`. -/
theorem listTools_error_shape (connect : Except MCPErr Unit)
    (raw : Except MCPErr (Option (List String))) (s : McpState) (name : String)
    (e : MCPErr) (h : (listTools connect raw s name).fst = Except.error e) :
    ∃ msg, e = MCPErr.toolCallError name "listTools" msg := by
  unfold listTools at h
  cases hg : getClient connect s name with
  | error e2 =>
    simp [hg] at h
    exact ⟨_, h.symm⟩
  | ok s1 =>
    cases hraw : raw with
    | error e2 =>
      simp [hg, hraw] at h
      exact ⟨_, h.symm⟩
    | ok tools => simp [hg, hraw] at h

/-- Claim C6: a setup-time exception in `runTests` that is a
`ServerNotFoundError` is re-thrown; any other setup-time exception
(from the existence check or from listing tools) is converted into a
response with exactly one synthetic failing result and a summary of
`total = 1, passed = 0, failed = 1`. -/
theorem runTests_setup_exception (env : RunEnv) (s : McpState) (name n2 : String)
    (e : MCPErr) :
    (env.getServerProcess = Except.error (MCPErr.serverNotFound n2) →
       (runTests env s name).fst = Except.error (MCPErr.serverNotFound n2)) ∧
    (env.getServerProcess = Except.error e → (∀ m, e ≠ MCPErr.serverNotFound m) →
       (runTests env s name).fst = Except.ok
         { results := [{ name := "Test suite setup", passed := false,
                         message := "Failed to setup test suite: " ++ e.message,
                         duration_ms := env.elapsed, error := some e.message }],
           summary := { total := 1, passed := 0, failed := 1,
                        duration_ms := env.elapsed } }) ∧
    (env.getServerProcess = Except.ok () →
       (listTools env.listConnect env.listToolsRaw s name).fst = Except.error e →
       (∀ m, e ≠ MCPErr.serverNotFound m) ∧
       (runTests env s name).fst = Except.ok
         { results := [{ name := "Test suite setup", passed := false,
                         message := "Failed to setup test suite: " ++ e.message,
                         duration_ms := env.elapsed, error := some e.message }],
           summary := { total := 1, passed := 0, failed := 1,
                        duration_ms := env.elapsed } }) := by
  refine ⟨?_, ?_, ?_⟩
  · intro hgp
    simp [runTests, hgp, runTestsCatch]
  · intro hgp hnsf
    cases e with
    | serverNotFound m => exact absurd rfl (hnsf m)
    | toolCallError server tool msg => simp [runTests, hgp, runTestsCatch, MCPErr.message]
    | genericError msg => simp [runTests, hgp, runTestsCatch, MCPErr.message]
  · intro hgp hlist
    obtain ⟨msg, rfl⟩ := listTools_error_shape _ _ _ _ _ hlist
    refine ⟨fun m h => MCPErr.noConfusion h, ?_⟩
    rcases hl : listTools env.listConnect env.listToolsRaw s name with ⟨res, s1⟩
    rw [hl] at hlist
    simp only at hlist
    subst hlist
    simp [runTests, hgp, hl, runTestsCatch]

/-- Witness for `runTests_setup_exception`: a setup failure that is not
a `ServerNotFoundError` yields the synthetic one-result summary. -/
theorem runTests_setup_exception_witness :
    (runTests
        { getServerProcess := Except.error (MCPErr.genericError "boom"),
          listConnect := Except.ok (), listToolsRaw := Except.ok (some []),
          calls := fun _ =>
            { healthCheckOk := true, connect := Except.ok (),
              callToolRaw := Except.ok Json.null, parse := fun _ => none, elapsed := 1 },
          regexTest := fun _ _ => false, elapsed := 4 }
        { sseServers := [], connectedClients := [] } "calc").fst = Except.ok
      { results := [{ name := "Test suite setup", passed := false,
                      message := "Failed to setup test suite: " ++
                        (MCPErr.genericError "boom").message,
                      duration_ms := 4, error := some (MCPErr.genericError "boom").message }],
        summary := { total := 1, passed := 0, failed := 1, duration_ms := 4 } } :=
  (runTests_setup_exception
      { getServerProcess := Except.error (MCPErr.genericError "boom"),
        listConnect := Except.ok (), listToolsRaw := Except.ok (some []),
        calls := fun _ =>
          { healthCheckOk := true, connect := Except.ok (),
            callToolRaw := Except.ok Json.null, parse := fun _ => none, elapsed := 1 },
        regexTest := fun _ _ => false, elapsed := 4 }
      { sseServers := [], connectedClients := [] } "calc" "x"
      (MCPErr.genericError "boom")).2.1 rfl (fun m h => MCPErr.noConfusion h)
